import Mathlib

/-!
Shallow embedding of `src/byteps/torch/ops.cc` (the asynchronous dispatch and
completion-tracking core for BytePS push-pull operations), together with
theorems settling the frozen claims about it.

The file models:
  * `GetOpName`, `GetDeviceID` (the anonymous-namespace helpers),
  * `DoPushPull` (handle allocation, lazy tensor registration, stage-plan
    construction, submission with a completion continuation),
  * the completion continuation captured at line 99-105 of the source,
  * `WaitAndClear` and `PollHandle`.

External collaborators that are declared but whose code is not part of the
source file (`HandleManager` from handle_manager.h, `common::CheckInitialized`,
`common::IsTensorInitialized`, `common::InitTensor`, `common::EnqueueTensor`,
`byteps_size`) are modelled from the specification; each such definition's doc
comment says so.  Tensor buffers are modelled as lists of rationals addressed
by an abstract pointer (a `Nat`); real time (the 1 ms sleep) is abstracted to
one loop iteration, and the possibly-unbounded busy-wait loop is given an
explicit fuel parameter, with fuel exhaustion meaning "still blocked".
-/

deriving instance DecidableEq for Except

namespace BytePS

/-- Outcome codes carried by a `Status` (taxonomy from the error-handling
design: ok, uninitialized engine, generic engine/operation failure). -/
inductive StatusCode where
  | ok
  | uninitialized
  | failure
deriving DecidableEq, Repr

/-- `common::Status`: an outcome with a code and a human-readable message. -/
structure Status where
  code : StatusCode
  msg : String
deriving DecidableEq, Repr

/-- Whether a status represents success (`Status::ok()`). -/
def Status.isOk (s : Status) : Bool := s.code = StatusCode.ok

/-- The successful status. -/
def Status.okStatus : Status := ⟨StatusCode.ok, ""⟩

/-- `ThrowIfError`: raises the status as an error when it is not ok,
modelled in the `Except` monad. -/
def ThrowIfError (s : Status) : Except Status Unit :=
  if s.isOk then Except.ok () else Except.error s

/-- The stage (queue) types pushed into the stage plan by `DoPushPull`
(`common::QueueType` values used in the source). -/
inductive QueueType where
  | COORDINATE_REDUCE
  | REDUCE
  | COPYD2H
  | PUSH
  | PULL
  | COPYH2D
  | COORDINATE_BROADCAST
  | BROADCAST
deriving DecidableEq, Repr

/-- Element-type tags for tensors (the dtypes exported in the pybind module:
int, long, half, float, double). -/
inductive DType where
  | int32
  | int64
  | float16
  | float32
  | float64
deriving DecidableEq, Repr

/-- A torch device: host (CPU) or an accelerator (CUDA) with a device index.
Concrete tensors carry a concrete (non-negative) CUDA index. -/
inductive Device where
  | cpu
  | cuda (idx : Nat)
deriving DecidableEq, Repr

/-- `CPU_DEVICE_ID`: the sentinel device id used for host-resident tensors. -/
def CPU_DEVICE_ID : Int := -1

/-- A tensor reference as seen through the `TorchTensor` adapter: device
classification, raw data pointer (an abstract buffer id), byte size, dtype. -/
structure TorchTensor where
  device : Device
  ptr : Nat
  size : Nat
  dtype : DType
deriving DecidableEq, Repr

/-- `GetOpName` (ops.cc lines 36-42): non-empty name gives `prefix.name`;
empty name gives `prefix.noname.<handle>`. -/
def GetOpName (pfx : String) (name : String) (handle : Int) : String :=
  if name.isEmpty = false then pfx ++ "." ++ name
  else pfx ++ ".noname." ++ toString handle

/-- `GetDeviceID` (ops.cc lines 44-49): the CUDA index for a CUDA tensor,
`CPU_DEVICE_ID` otherwise. -/
def GetDeviceID (t : TorchTensor) : Int :=
  match t.device with
  | Device.cuda i => (i : Int)
  | Device.cpu => CPU_DEVICE_ID

/-- Modelled from the spec: the Handle Registry (`HandleManager` from
handle_manager.h, which is not part of the source file).  Maps integer
handles to `none` (pending) or `some status` (resolved); allocation is
monotonic via `nextHandle`. -/
structure HandleManager where
  nextHandle : Int
  entries : List (Int × Option Status)
deriving DecidableEq, Repr

/-- Modelled from the spec: `AllocateHandle` returns a fresh handle with
pending status and publishes the entry in the registry. -/
def HandleManager.AllocateHandle (hm : HandleManager) : Int × HandleManager :=
  (hm.nextHandle, ⟨hm.nextHandle + 1, (hm.nextHandle, none) :: hm.entries⟩)

/-- Modelled from the spec: `MarkDone` (resolve) transitions a pending entry
to resolved with the given outcome; on an unknown or already-resolved handle
(a core bug per the spec) the registry is left unchanged. -/
def HandleManager.MarkDone (hm : HandleManager) (h : Int) (st : Status) :
    HandleManager :=
  ⟨hm.nextHandle,
   hm.entries.map (fun e => if e.1 = h ∧ e.2 = none then (e.1, some st) else e)⟩

/-- Modelled from the spec: `PollHandle` reports whether the handle is
resolved; non-blocking. -/
def HandleManager.PollHandle (hm : HandleManager) (h : Int) : Bool :=
  match hm.entries.lookup h with
  | some (some _) => true
  | _ => false

/-- Modelled from the spec: `ReleaseHandle` requires the handle to be
resolved; it removes the entry and returns the stored outcome.  Calling it on
a pending or unknown handle is a misuse error. -/
def HandleManager.ReleaseHandle (hm : HandleManager) (h : Int) :
    Except String (Status × HandleManager) :=
  match hm.entries.lookup h with
  | some (some st) =>
      Except.ok (st, ⟨hm.nextHandle, hm.entries.filter (fun e => e.1 ≠ h)⟩)
  | some none => Except.error "release on pending handle"
  | none => Except.error "release on unknown handle"

/-- The stage plan built by `DoPushPull` (ops.cc lines 78-94) as a function of
`common::IsRoot()` and `common::IsDistributedJob()`. -/
def queueList (isRoot : Bool) (isDistributed : Bool) : List QueueType :=
  if isRoot then
    [QueueType.REDUCE] ++
    (if isDistributed then
      [QueueType.COPYD2H, QueueType.PUSH, QueueType.PULL, QueueType.COPYH2D]
     else []) ++
    [QueueType.BROADCAST]
  else
    [QueueType.COORDINATE_REDUCE, QueueType.REDUCE,
     QueueType.COORDINATE_BROADCAST, QueueType.BROADCAST]

/-- The engine state visible to this core through the `common::` interface.
The fields beyond `registered` are modelled from the spec (the engine is an
external collaborator): `initialized` backs `CheckInitialized`, `registered`
is the registration table (name to registered byte size), `isRoot`,
`isDistributed`, `worldSize` back `IsRoot`/`IsDistributedJob`/`byteps_size`,
and `enqueueStatus` is the status `EnqueueTensor` returns synchronously. -/
structure Engine where
  initialized : Bool
  registered : List (String × Nat)
  isRoot : Bool
  isDistributed : Bool
  worldSize : Nat
  enqueueStatus : Status
deriving DecidableEq, Repr

/-- Modelled from the spec: `common::CheckInitialized` returns ok when the
engine is initialized and an uninitialized-engine error otherwise. -/
def CheckInitialized (eng : Engine) : Status :=
  if eng.initialized then Status.okStatus
  else ⟨StatusCode.uninitialized, "BytePS has not been initialized"⟩

/-- Modelled from the spec: `common::IsTensorInitialized(name, size)` reports
whether an operation was already submitted under this identity (the context
is created lazily on first use of a given name). -/
def IsTensorInitialized (eng : Engine) (name : String) (size : Nat) : Bool :=
  (eng.registered.lookup name).isSome

/-- Modelled from the spec: the engine-side effect of the blocking
`common::InitTensor` call — the identity becomes registered with its size. -/
def registerTensor (eng : Engine) (name : String) (size : Nat) : Engine :=
  { eng with registered := (name, size) :: eng.registered }

/-- The completion continuation captured by `DoPushPull` at submission time
(ops.cc line 99): the captured handle, average flag, and the captured input
tensor (`[handle, average, tensor]`). -/
structure Callback where
  handle : Int
  average : Int
  tensorPtr : Nat
deriving DecidableEq, Repr

/-- The engine calls `DoPushPull` performs, in program order. -/
inductive Event where
  | checkInitialized
  | allocateHandle (h : Int)
  | isTensorInitialized (name : String) (size : Nat) (res : Bool)
  | getContext (name : String)
  | initTensor (name : String) (dtype : DType) (hostPtr : Option Nat)
  | enqueueTensor (name : String) (plan : List QueueType) (cb : Callback)
deriving DecidableEq, Repr

/-- The result of one `DoPushPull` call: the returned handle or the raised
error, the final registry and engine states, the trace of engine calls, and
what was passed to `EnqueueTensor` (identity, stage plan, continuation),
`none` when the call failed before submission. -/
structure PPResult where
  result : Except Status Int
  hm : HandleManager
  engine : Engine
  events : List Event
  submitted : Option (String × List QueueType × Callback)
deriving DecidableEq, Repr

/-- `DoPushPull` (ops.cc lines 53-110).  Checks initialization, allocates a
handle, classifies the device, computes the tensor identity with
`GetOpName("byteps", name, 0)` (the literal 0 of line 63), lazily registers
the tensor (passing the raw data pointer only for a host tensor, line 73),
builds the stage plan, and submits with the completion continuation.  A
failing synchronous `EnqueueTensor` status is raised by `ThrowIfError` after
the handle was already allocated. -/
def DoPushPull (tensor output : TorchTensor) (average : Int) (name : String)
    (version priority : Int) (eng : Engine) (hm : HandleManager) : PPResult :=
  if (CheckInitialized eng).isOk = false then
    { result := Except.error (CheckInitialized eng), hm := hm, engine := eng,
      events := [Event.checkInitialized], submitted := none }
  else
    let handle := hm.AllocateHandle.1
    let hm1 := hm.AllocateHandle.2
    let device := GetDeviceID tensor
    let tensor_name := GetOpName "byteps" name 0
    let size := tensor.size
    let dtype := tensor.dtype
    let needInit := !(IsTensorInitialized eng tensor_name size)
    let eng1 := if needInit then registerTensor eng tensor_name size else eng
    let initEvents :=
      if needInit then
        [Event.getContext tensor_name,
         Event.initTensor tensor_name dtype
           (if device = CPU_DEVICE_ID then some tensor.ptr else none)]
      else []
    let plan := queueList eng.isRoot eng.isDistributed
    let cb : Callback := ⟨handle, average, tensor.ptr⟩
    let events :=
      [Event.checkInitialized, Event.allocateHandle handle,
       Event.isTensorInitialized tensor_name size (!needInit)] ++
      initEvents ++
      [Event.getContext tensor_name, Event.enqueueTensor tensor_name plan cb]
    let result :=
      match ThrowIfError eng.enqueueStatus with
      | Except.error e => Except.error e
      | Except.ok _ => Except.ok handle
    { result := result, hm := hm1, engine := eng1, events := events,
      submitted := some (tensor_name, plan, cb) }

/-- A tensor store: buffer contents (element lists, elements as exact
rationals) addressed by raw pointer. -/
def Store : Type := Nat → List ℚ

/-- Point update of a store. -/
def updateBuf (s : Store) (p : Nat) (v : List ℚ) : Store :=
  fun q => if q = p then v else s q

/-- `tensor.div_(n)`: element-wise in-place division. -/
def divBuf (n : Nat) (b : List ℚ) : List ℚ :=
  b.map (fun x => x / (n : ℚ))

/-- Running the completion continuation (ops.cc lines 99-105) with the
captured values: if `average` is set, divide the captured tensor's buffer in
place by `byteps_size()` (the world size); then `MarkDone` the captured
handle with the engine-reported status. -/
def applyCallback (cb : Callback) (worldSize : Nat) (status : Status)
    (store : Store) (hm : HandleManager) : Store × HandleManager :=
  let store' :=
    if cb.average ≠ 0 then
      updateBuf store cb.tensorPtr (divBuf worldSize (store cb.tensorPtr))
    else store
  (store', hm.MarkDone cb.handle status)

/-- First index in a list satisfying a predicate. -/
def firstIdx {α : Type} (p : α → Bool) : List α → Option Nat
  | [] => none
  | a :: l => if p a then some 0 else (firstIdx p l).map Nat.succ

/-- Is this event the blocking `InitTensor` registration call? -/
def isInitEv : Event → Bool
  | Event.initTensor _ _ _ => true
  | _ => false

/-- Is this event the `EnqueueTensor` submission? -/
def isEnqEv : Event → Bool
  | Event.enqueueTensor _ _ _ => true
  | _ => false

/-- The identity under which `DoPushPull` submitted the operation. -/
def enqueuedName (r : PPResult) : Option String :=
  r.submitted.map (fun s => s.1)

/-- The stage plan `DoPushPull` submitted. -/
def enqueuedPlan (r : PPResult) : Option (List QueueType) :=
  r.submitted.map (fun s => s.2.1)

/-- The continuation `DoPushPull` submitted. -/
def enqueuedCallback (r : PPResult) : Option Callback :=
  r.submitted.map (fun s => s.2.2)

/-- Comparison of optional stage/event indices: both present and strictly
ordered. -/
def optLt : Option Nat → Option Nat → Bool
  | some i, some j => decide (i < j)
  | _, _ => false

/-- The host data pointer passed to `InitTensor`, when registration ran. -/
def initHostPtr (r : PPResult) : Option (Option Nat) :=
  r.events.foldr
    (fun e acc => match e with
      | Event.initTensor _ _ p => some p
      | _ => acc) none

/-- `PollHandle` (ops.cc line 112): the exported non-blocking poll,
returning 1 for resolved and 0 otherwise. -/
def PollHandleExport (hm : HandleManager) (handle : Int) : Int :=
  if hm.PollHandle handle then 1 else 0

/-- Registry operations performed by `WaitAndClear`, for the temporal
claims: each poll (with its step and outcome), each 1 ms sleep (abstracted
to one event), the successful release, and the (supposedly unreachable)
misuse of releasing an unresolved handle. -/
inductive WCEvent where
  | poll (step : Nat) (res : Bool)
  | sleep
  | release (h : Int)
  | releaseMisuse (h : Int)
deriving DecidableEq, Repr

/-- The busy-wait loop of `WaitAndClear` (ops.cc lines 115-117).  The registry
as seen by the polling thread at step `i` is `env i` (resolution happens on
an engine thread); `fuel` bounds how many polls we unfold, `none` meaning the
loop is still blocked after `fuel` polls.  Returns the step at which the poll
succeeded and the trace of polls and sleeps. -/
def pollLoop (handle : Int) (env : Nat → HandleManager) :
    Nat → Nat → Option Nat × List WCEvent
  | 0, _ => (none, [])
  | Nat.succ fuel, i =>
      if (env i).PollHandle handle then (some i, [WCEvent.poll i true])
      else
        let rest := pollLoop handle env fuel (i + 1)
        (rest.1, WCEvent.poll i false :: WCEvent.sleep :: rest.2)

/-- `WaitAndClear` (ops.cc lines 114-120): poll in a sleep loop until the
handle is resolved, then release it and `ThrowIfError` the stored outcome.
Returns `none` while still blocked in the loop; otherwise the final registry
and the raised-or-ok outcome, with the trace of registry operations. -/
def WaitAndClear (handle : Int) (env : Nat → HandleManager) (fuel : Nat) :
    Option (HandleManager × Except Status Unit) × List WCEvent :=
  match pollLoop handle env fuel 0 with
  | (none, evs) => (none, evs)
  | (some i, evs) =>
      match (env i).ReleaseHandle handle with
      | Except.ok (st, hm') =>
          (some (hm', ThrowIfError st), evs ++ [WCEvent.release handle])
      | Except.error _ =>
          (some (env i, Except.error ⟨StatusCode.failure, "misuse"⟩),
           evs ++ [WCEvent.releaseMisuse handle])

/-- Number of release operations (successful or misuse) in a trace. -/
def countReleases (l : List WCEvent) : Nat :=
  l.countP (fun e => match e with
    | WCEvent.release _ => true
    | WCEvent.releaseMisuse _ => true
    | _ => false)

/-- Number of misuse releases (release of an unresolved handle) in a trace. -/
def countMisuse (l : List WCEvent) : Nat :=
  l.countP (fun e => match e with
    | WCEvent.releaseMisuse _ => true
    | _ => false)

/-! ### Concrete fixtures used by the counterexamples and witnesses -/

/-- A generic engine-reported failure status. -/
def failStatus : Status := ⟨StatusCode.failure, "enqueue failed"⟩

/-- An initialized single-machine engine with 2 local workers, root, whose
submissions succeed. -/
def engDefault : Engine := ⟨true, [], true, false, 2, Status.okStatus⟩

/-- An initialized engine whose `EnqueueTensor` fails synchronously. -/
def engEnqFail : Engine := ⟨true, [], true, false, 2, failStatus⟩

/-- An uninitialized engine. -/
def engUninit : Engine := ⟨false, [], true, false, 2, Status.okStatus⟩

/-- An empty registry about to allocate handle 0. -/
def emptyHM : HandleManager := ⟨0, []⟩

/-- An empty registry about to allocate handle 7. -/
def hmAt7 : HandleManager := ⟨7, []⟩

/-- A host-resident input tensor whose buffer is pointer 0. -/
def cpuTensorA : TorchTensor := ⟨Device.cpu, 0, 4, DType.float32⟩

/-- A host-resident output tensor, distinct from the input: its buffer is
pointer 1. -/
def cpuTensorB : TorchTensor := ⟨Device.cpu, 1, 4, DType.float32⟩

/-- A store where the input buffer (pointer 0) holds `[4]` and the output
buffer (pointer 1) holds `[6]`. -/
def storeAB : Store := fun p => if p = 0 then [4] else [6]

/-- A registry holding handle 0, pending. -/
def pendingHM : HandleManager := ⟨1, [(0, none)]⟩

/-- Registry-over-time as the waiter sees it: handle 0 pending at poll step 0,
resolved with `failStatus` from step 1 on. -/
def envResolve1 : Nat → HandleManager :=
  fun i => if 1 ≤ i then pendingHM.MarkDone 0 failStatus else pendingHM

/-! ### General lemmas about the embedding -/

/-- An initialized engine passes the `CheckInitialized` guard. -/
theorem checkInitialized_ok (eng : Engine) (hinit : eng.initialized = true) :
    (CheckInitialized eng).isOk = true := by
  simp [CheckInitialized, hinit, Status.isOk, Status.okStatus]

/-- The continuation `DoPushPull` captures is exactly the allocated handle,
the caller's average flag, and the caller's input tensor pointer. -/
theorem enqueuedCallback_eq (tensor output : TorchTensor) (average : Int)
    (name : String) (version priority : Int) (eng : Engine) (hm : HandleManager)
    (hinit : eng.initialized = true) :
    enqueuedCallback (DoPushPull tensor output average name version priority eng hm)
      = some ⟨hm.nextHandle, average, tensor.ptr⟩ := by
  simp [DoPushPull, checkInitialized_ok eng hinit, enqueuedCallback,
    HandleManager.AllocateHandle]

/-! ### C1 -/

/-- C1, counterexample.  The claim says the continuation divides the caller's
*output* tensor in place by the worker count.  Concrete input: a call with
`average = 1` on a distinct input buffer (pointer 0, contents `[4]`) and
output buffer (pointer 1, contents `[6]`), world size 2.  The continuation
the call submits is `⟨handle 0, average 1, input pointer 0⟩` — it captures
the input tensor (`tensor`, ops.cc line 99), not the output — and running it
leaves the output buffer at `[6]`, not the `[3]` the claim requires. -/
theorem C1_divides_output_counterexample :
    enqueuedCallback (DoPushPull cpuTensorA cpuTensorB 1 "g" 0 0 engDefault emptyHM)
      = some ⟨0, 1, 0⟩ ∧
    ¬ ((applyCallback ⟨0, 1, 0⟩ engDefault.worldSize Status.okStatus storeAB
          pendingHM).1 cpuTensorB.ptr
        = divBuf engDefault.worldSize (storeAB cpuTensorB.ptr)) := by
  constructor
  · decide
  · simp [applyCallback, updateBuf, storeAB, divBuf, cpuTensorB, engDefault]
    norm_num

/-- C1, amended: for every call to `DoPushPull` with `average` set, the
completion continuation divides the caller's *input* tensor in place,
element-wise, by the total worker count (`byteps_size()`), and then resolves
the captured handle with the engine-reported status.  (The source captures
and divides `tensor`, the input, at ops.cc lines 99-102; the output buffer is
only touched when it aliases the input.) -/
theorem C1_continuation_divides_input (tensor output : TorchTensor)
    (average : Int) (name : String) (version priority : Int) (eng : Engine)
    (hm : HandleManager) (cb : Callback) (ws : Nat) (status : Status)
    (store : Store) (hmRT : HandleManager)
    (hcb : enqueuedCallback
        (DoPushPull tensor output average name version priority eng hm) = some cb)
    (havg : average ≠ 0) :
    cb = ⟨hm.nextHandle, average, tensor.ptr⟩ ∧
    applyCallback cb ws status store hmRT =
      (updateBuf store tensor.ptr (divBuf ws (store tensor.ptr)),
       hmRT.MarkDone hm.nextHandle status) := by
  have hcb' : cb = ⟨hm.nextHandle, average, tensor.ptr⟩ := by
    by_cases h : (CheckInitialized eng).isOk = false
    · simp [DoPushPull, h, enqueuedCallback] at hcb
    · simp [DoPushPull, h, enqueuedCallback, HandleManager.AllocateHandle] at hcb
      exact hcb.symm
  subst hcb'
  exact ⟨rfl, by simp [applyCallback, havg]⟩

/-- C1, witness: the amended theorem applied to the concrete call of the
counterexample; the input buffer (pointer 0) is the one divided. -/
theorem C1_continuation_divides_input_witness :
    enqueuedCallback (DoPushPull cpuTensorA cpuTensorB 1 "g" 0 0 engDefault emptyHM)
      = some ⟨0, 1, 0⟩ ∧
    (1 : Int) ≠ 0 ∧
    ((⟨0, 1, 0⟩ : Callback) = ⟨emptyHM.nextHandle, 1, cpuTensorA.ptr⟩ ∧
     applyCallback ⟨0, 1, 0⟩ 2 Status.okStatus storeAB pendingHM =
       (updateBuf storeAB cpuTensorA.ptr (divBuf 2 (storeAB cpuTensorA.ptr)),
        pendingHM.MarkDone emptyHM.nextHandle Status.okStatus)) :=
  ⟨by decide, by decide,
   C1_continuation_divides_input cpuTensorA cpuTensorB 1 "g" 0 0 engDefault
     emptyHM ⟨0, 1, 0⟩ 2 Status.okStatus storeAB pendingHM (by decide) (by decide)⟩

/-! ### C2 -/

/-- C2, counterexample.  Concrete input: an empty label submitted to an empty
registry whose next handle is 7, so the call's handle is 7; the claim says
the identity is then `byteps.noname.7`, but `DoPushPull` passes the literal 0
to `GetOpName` (ops.cc line 63) and submits under `byteps.noname.0`. -/
theorem C2_identity_uses_handle_counterexample :
    (DoPushPull cpuTensorA cpuTensorB 1 "" 0 0 engDefault hmAt7).result
      = Except.ok 7 ∧
    enqueuedName (DoPushPull cpuTensorA cpuTensorB 1 "" 0 0 engDefault hmAt7)
      = some "byteps.noname.0" ∧
    ¬ (enqueuedName (DoPushPull cpuTensorA cpuTensorB 1 "" 0 0 engDefault hmAt7)
        = some ("byteps" ++ ".noname." ++ toString (7 : Int))) := by
  refine ⟨by decide, by decide, by decide⟩

/-- C2, amended: for every call with an empty label the identity is the fixed
prefix joined with `.noname.0` — the literal handle value 0, independent of
the handle actually allocated for the call — and for every call with a
non-empty label `L` the identity is the prefix joined with `.` and `L`,
independent of the handle id. -/
theorem C2_identity_of_label (tensor output : TorchTensor) (average : Int)
    (name : String) (version priority : Int) (eng : Engine) (hm : HandleManager)
    (hinit : eng.initialized = true) :
    enqueuedName (DoPushPull tensor output average name version priority eng hm)
      = some (if name.isEmpty then "byteps.noname.0" else "byteps" ++ "." ++ name) := by
  cases hn : name.isEmpty
  · simp [DoPushPull, checkInitialized_ok eng hinit, enqueuedName, GetOpName, hn]
  · simp [DoPushPull, checkInitialized_ok eng hinit, enqueuedName, GetOpName, hn]
    decide

/-- C2, witness: with an empty label and next handle 7 the identity is
`byteps.noname.0`. -/
theorem C2_identity_of_label_witness :
    engDefault.initialized = true ∧
    enqueuedName (DoPushPull cpuTensorA cpuTensorB 1 "" 0 0 engDefault hmAt7)
      = some (if "".isEmpty then "byteps.noname.0" else "byteps" ++ "." ++ "") :=
  ⟨rfl, C2_identity_of_label cpuTensorA cpuTensorB 1 "" 0 0 engDefault hmAt7 rfl⟩

/-! ### C3 -/

/-- C3, counterexample.  Concrete input: an initialized engine whose
`EnqueueTensor` fails synchronously, called with an empty registry.  The
failure is propagated as an error (first conjunct, as the claim says), but
the handle 0 allocated at the start of the call (ops.cc line 57) is left in
the registry as a pending entry that no continuation will ever resolve —
refuting the claim's "no handle is leaked". -/
theorem C3_no_leak_counterexample :
    (DoPushPull cpuTensorA cpuTensorB 0 "x" 0 0 engEnqFail emptyHM).result
      = Except.error failStatus ∧
    (DoPushPull cpuTensorA cpuTensorB 0 "x" 0 0 engEnqFail emptyHM).hm.entries.lookup 0
      = some none ∧
    (DoPushPull cpuTensorA cpuTensorB 0 "x" 0 0 engEnqFail emptyHM).hm.PollHandle 0
      = false := by
  refine ⟨by decide, by decide, by decide⟩

/-- C3, amended: if the engine's submission call fails synchronously,
`DoPushPull` propagates that failure immediately to the caller as an error,
but the handle allocated at the start of the call remains in the registry as
a pending entry that will never resolve (the handle is leaked). -/
theorem C3_enqueue_failure_propagates (tensor output : TorchTensor)
    (average : Int) (name : String) (version priority : Int) (eng : Engine)
    (hm : HandleManager) (hinit : eng.initialized = true)
    (hfail : eng.enqueueStatus.isOk = false) :
    (DoPushPull tensor output average name version priority eng hm).result
      = Except.error eng.enqueueStatus ∧
    (DoPushPull tensor output average name version priority eng hm).hm.entries.lookup
        hm.nextHandle = some none := by
  constructor
  · simp [DoPushPull, checkInitialized_ok eng hinit, ThrowIfError, hfail]
  · simp [DoPushPull, checkInitialized_ok eng hinit,
      HandleManager.AllocateHandle, List.lookup]

/-- C3, witness: the amended theorem at the counterexample's concrete call. -/
theorem C3_enqueue_failure_propagates_witness :
    engEnqFail.initialized = true ∧
    engEnqFail.enqueueStatus.isOk = false ∧
    ((DoPushPull cpuTensorA cpuTensorB 0 "x" 0 0 engEnqFail emptyHM).result
        = Except.error engEnqFail.enqueueStatus ∧
     (DoPushPull cpuTensorA cpuTensorB 0 "x" 0 0 engEnqFail emptyHM).hm.entries.lookup
        emptyHM.nextHandle = some none) :=
  ⟨rfl, rfl,
   C3_enqueue_failure_propagates cpuTensorA cpuTensorB 0 "x" 0 0 engEnqFail
     emptyHM rfl rfl⟩

/-! ### C4 -/

/-- C4: the stage plan `DoPushPull` submits is a total function of the two
booleans (is-root, is-distributed): root and non-distributed yields exactly
[local-reduce, local-broadcast]; root and distributed yields exactly
[local-reduce, d2h copy, push, pull, h2d copy, local-broadcast]; non-root
yields exactly [coordinate-reduce, local-reduce, coordinate-broadcast,
local-broadcast] for either value of the distributed flag. -/
theorem C4_stage_plan (tensor output : TorchTensor) (average : Int)
    (name : String) (version priority : Int) (eng : Engine) (hm : HandleManager)
    (hinit : eng.initialized = true) :
    enqueuedPlan (DoPushPull tensor output average name version priority eng hm)
      = some (queueList eng.isRoot eng.isDistributed) ∧
    queueList true false = [QueueType.REDUCE, QueueType.BROADCAST] ∧
    queueList true true
      = [QueueType.REDUCE, QueueType.COPYD2H, QueueType.PUSH, QueueType.PULL,
         QueueType.COPYH2D, QueueType.BROADCAST] ∧
    queueList false false
      = [QueueType.COORDINATE_REDUCE, QueueType.REDUCE,
         QueueType.COORDINATE_BROADCAST, QueueType.BROADCAST] ∧
    queueList false true
      = [QueueType.COORDINATE_REDUCE, QueueType.REDUCE,
         QueueType.COORDINATE_BROADCAST, QueueType.BROADCAST] :=
  ⟨by simp [DoPushPull, checkInitialized_ok eng hinit, enqueuedPlan],
   by decide, by decide, by decide, by decide⟩

/-- C4, witness: the stage plan of a concrete root, non-distributed call. -/
theorem C4_stage_plan_witness :
    engDefault.initialized = true ∧
    (enqueuedPlan (DoPushPull cpuTensorA cpuTensorB 1 "g" 0 0 engDefault emptyHM)
       = some (queueList engDefault.isRoot engDefault.isDistributed) ∧
     queueList true false = [QueueType.REDUCE, QueueType.BROADCAST] ∧
     queueList true true
       = [QueueType.REDUCE, QueueType.COPYD2H, QueueType.PUSH, QueueType.PULL,
          QueueType.COPYH2D, QueueType.BROADCAST] ∧
     queueList false false
       = [QueueType.COORDINATE_REDUCE, QueueType.REDUCE,
          QueueType.COORDINATE_BROADCAST, QueueType.BROADCAST] ∧
     queueList false true
       = [QueueType.COORDINATE_REDUCE, QueueType.REDUCE,
          QueueType.COORDINATE_BROADCAST, QueueType.BROADCAST]) :=
  ⟨rfl, C4_stage_plan cpuTensorA cpuTensorB 1 "g" 0 0 engDefault emptyHM rfl⟩

/-! ### C5 -/

/-- C5: when the engine reports itself uninitialized, `DoPushPull` fails with
the uninitialized-engine error before any handle is allocated: the registry
is returned unchanged and the trace contains only the `CheckInitialized`
call (in particular no allocation and no submission). -/
theorem C5_uninitialized_engine (tensor output : TorchTensor) (average : Int)
    (name : String) (version priority : Int) (eng : Engine) (hm : HandleManager)
    (hinit : eng.initialized = false) :
    (DoPushPull tensor output average name version priority eng hm).result
      = Except.error ⟨StatusCode.uninitialized, "BytePS has not been initialized"⟩ ∧
    (DoPushPull tensor output average name version priority eng hm).hm = hm ∧
    (DoPushPull tensor output average name version priority eng hm).events
      = [Event.checkInitialized] ∧
    (DoPushPull tensor output average name version priority eng hm).submitted
      = none := by
  refine ⟨?_, ?_, ?_, ?_⟩ <;>
    simp [DoPushPull, CheckInitialized, hinit, Status.isOk]

/-- C5, witness: a concrete call against the uninitialized engine. -/
theorem C5_uninitialized_engine_witness :
    engUninit.initialized = false ∧
    ((DoPushPull cpuTensorA cpuTensorB 1 "g" 0 0 engUninit hmAt7).result
       = Except.error ⟨StatusCode.uninitialized, "BytePS has not been initialized"⟩ ∧
     (DoPushPull cpuTensorA cpuTensorB 1 "g" 0 0 engUninit hmAt7).hm = hmAt7 ∧
     (DoPushPull cpuTensorA cpuTensorB 1 "g" 0 0 engUninit hmAt7).events
       = [Event.checkInitialized] ∧
     (DoPushPull cpuTensorA cpuTensorB 1 "g" 0 0 engUninit hmAt7).submitted
       = none) :=
  ⟨rfl, C5_uninitialized_engine cpuTensorA cpuTensorB 1 "g" 0 0 engUninit hmAt7 rfl⟩

/-! ### Lemmas about the `WaitAndClear` busy-wait loop -/

/-- The polling loop only reports a step at which the handle polled as
resolved. -/
theorem pollLoop_some_poll (handle : Int) (env : Nat → HandleManager) :
    ∀ fuel i j, (pollLoop handle env fuel i).1 = some j →
      (env j).PollHandle handle = true := by
  intro fuel
  induction fuel with
  | zero => intro i j hj; simp [pollLoop] at hj
  | succ f ih =>
      intro i j hj
      by_cases hp : (env i).PollHandle handle
      · simp [pollLoop, hp] at hj
        subst hj
        exact hp
      · simp [pollLoop, hp] at hj
        exact ih (i + 1) j hj

/-- The polling loop itself performs no release operation. -/
theorem pollLoop_no_release (handle : Int) (env : Nat → HandleManager) :
    ∀ fuel i, countReleases (pollLoop handle env fuel i).2 = 0 := by
  intro fuel
  induction fuel with
  | zero => intro i; simp [pollLoop, countReleases]
  | succ f ih =>
      intro i
      by_cases hp : (env i).PollHandle handle
      · simp [pollLoop, hp, countReleases]
      · simp [pollLoop, hp, countReleases] at ih ⊢
        exact ih (i + 1)

/-- The polling loop performs no misuse release either. -/
theorem pollLoop_no_misuse (handle : Int) (env : Nat → HandleManager) :
    ∀ fuel i, countMisuse (pollLoop handle env fuel i).2 = 0 := by
  intro fuel
  induction fuel with
  | zero => intro i; simp [pollLoop, countMisuse]
  | succ f ih =>
      intro i
      by_cases hp : (env i).PollHandle handle
      · simp [pollLoop, hp, countMisuse]
      · simp [pollLoop, hp, countMisuse] at ih ⊢
        exact ih (i + 1)

/-- Looking a key up after filtering away all entries with that key finds
nothing. -/
theorem lookup_filter_self (h : Int) (l : List (Int × Option Status)) :
    (l.filter (fun e => e.1 ≠ h)).lookup h = none := by
  induction l with
  | nil => rfl
  | cons e l ih =>
      by_cases he : e.1 = h
      · simpa [List.filter_cons, he] using ih
      · have h1 : (h == e.1) = false :=
          beq_eq_false_iff_ne.mpr (fun hh => he hh.symm)
        simp [List.filter_cons, he, List.lookup, h1, ih]
        intro a b _ hne hh
        exact hne hh.symm

/-- A resolved handle releases successfully: the stored outcome comes back
and the entry is removed. -/
theorem releaseHandle_of_poll (hm : HandleManager) (h : Int)
    (hp : hm.PollHandle h = true) :
    ∃ st, hm.ReleaseHandle h
        = Except.ok (st, ⟨hm.nextHandle, hm.entries.filter (fun e => e.1 ≠ h)⟩) ∧
      hm.entries.lookup h = some (some st) := by
  unfold HandleManager.PollHandle at hp
  rcases hlk : hm.entries.lookup h with _ | ost
  · rw [hlk] at hp; simp at hp
  · rcases ost with _ | st
    · rw [hlk] at hp; simp at hp
    · refine ⟨st, ?_, ?_⟩
      · simp [HandleManager.ReleaseHandle, hlk]
      · simp [hlk]

/-! ### C6 -/

/-- C6: `WaitAndClear` blocks in the polling loop (one poll plus one
bounded-interval sleep per iteration; fuel exhaustion in the model means the
thread is still blocked) and leaves the loop only at a step where `PollHandle`
reports the handle resolved; it then releases the handle exactly once —
removing the entry, so the registry no longer knows the handle — and raises
the stored outcome as an error to the caller if and only if that outcome is
a failure. -/
theorem C6_wait_and_clear_behaviour (handle : Int) (env : Nat → HandleManager)
    (fuel i : Nat) (hpoll : (pollLoop handle env fuel 0).1 = some i) :
    (env i).PollHandle handle = true ∧
    ∃ st hm',
      (env i).ReleaseHandle handle = Except.ok (st, hm') ∧
      (WaitAndClear handle env fuel).1 = some (hm', ThrowIfError st) ∧
      countReleases (WaitAndClear handle env fuel).2 = 1 ∧
      hm'.entries.lookup handle = none ∧
      (ThrowIfError st = Except.error st ↔ st.isOk = false) := by
  have hp := pollLoop_some_poll handle env fuel 0 i hpoll
  obtain ⟨st, hrel, _⟩ := releaseHandle_of_poll (env i) handle hp
  obtain ⟨evs, hevs⟩ : ∃ evs, pollLoop handle env fuel 0 = (some i, evs) :=
    ⟨(pollLoop handle env fuel 0).2, by rw [← hpoll]⟩
  have hnr : countReleases evs = 0 := by
    have h0 := pollLoop_no_release handle env fuel 0
    rw [hevs] at h0
    exact h0
  refine ⟨hp, st, ⟨(env i).nextHandle, (env i).entries.filter (fun e => e.1 ≠ handle)⟩,
    hrel, ?_, ?_, ?_, ?_⟩
  · simp [WaitAndClear, hevs, hrel]
  · have hw : (WaitAndClear handle env fuel).2 = evs ++ [WCEvent.release handle] := by
      simp [WaitAndClear, hevs, hrel]
    rw [hw]
    unfold countReleases at hnr ⊢
    rw [List.countP_append, hnr]
    simp [List.countP_cons]
  · exact lookup_filter_self handle (env i).entries
  · cases hok : st.isOk <;> simp [ThrowIfError, hok]

/-- C6, witness: handle 0 pending at step 0 and resolved with a failure from
step 1 on; with fuel 3 the loop exits at step 1, the release removes the
entry, and the stored failure is raised. -/
theorem C6_wait_and_clear_behaviour_witness :
    (pollLoop 0 envResolve1 3 0).1 = some 1 ∧
    ((envResolve1 1).PollHandle 0 = true ∧
     ∃ st hm',
       (envResolve1 1).ReleaseHandle 0 = Except.ok (st, hm') ∧
       (WaitAndClear 0 envResolve1 3).1 = some (hm', ThrowIfError st) ∧
       countReleases (WaitAndClear 0 envResolve1 3).2 = 1 ∧
       hm'.entries.lookup 0 = none ∧
       (ThrowIfError st = Except.error st ↔ st.isOk = false)) :=
  ⟨by decide, C6_wait_and_clear_behaviour 0 envResolve1 3 1 (by decide)⟩

/-! ### C7 -/

/-- C7: within a single `DoPushPull` call, the blocking `InitTensor`
registration appears in the trace if and only if the identity is not already
registered with the engine, and when it appears it strictly precedes the
`EnqueueTensor` submission, so registration happens-before the stage-plan
submission for that identity (the embedding is the sequential program order
of the call). -/
theorem C7_register_before_submit (tensor output : TorchTensor) (average : Int)
    (name : String) (version priority : Int) (eng : Engine) (hm : HandleManager)
    (hinit : eng.initialized = true) :
    ((firstIdx isInitEv
        (DoPushPull tensor output average name version priority eng hm).events).isSome
      ↔ IsTensorInitialized eng (GetOpName "byteps" name 0) tensor.size = false) ∧
    (firstIdx isInitEv
        (DoPushPull tensor output average name version priority eng hm).events = none ∨
      optLt (firstIdx isInitEv
          (DoPushPull tensor output average name version priority eng hm).events)
        (firstIdx isEnqEv
          (DoPushPull tensor output average name version priority eng hm).events)
        = true) := by
  cases hreg : IsTensorInitialized eng (GetOpName "byteps" name 0) tensor.size
  · constructor
    · simp [DoPushPull, checkInitialized_ok eng hinit, hreg, firstIdx,
        isInitEv, isEnqEv]
    · right
      simp [DoPushPull, checkInitialized_ok eng hinit, hreg, firstIdx,
        isInitEv, isEnqEv, optLt]
  · constructor
    · simp [DoPushPull, checkInitialized_ok eng hinit, hreg, firstIdx,
        isInitEv, isEnqEv]
    · left
      simp [DoPushPull, checkInitialized_ok eng hinit, hreg, firstIdx,
        isInitEv, isEnqEv]

/-- C7, witness: a first-ever submission (nothing registered) registers, and
the registration precedes the submission in the trace. -/
theorem C7_register_before_submit_witness :
    engDefault.initialized = true ∧
    (((firstIdx isInitEv
         (DoPushPull cpuTensorA cpuTensorB 1 "g" 0 0 engDefault emptyHM).events).isSome
       ↔ IsTensorInitialized engDefault (GetOpName "byteps" "g" 0) cpuTensorA.size
           = false) ∧
     (firstIdx isInitEv
         (DoPushPull cpuTensorA cpuTensorB 1 "g" 0 0 engDefault emptyHM).events = none ∨
       optLt (firstIdx isInitEv
           (DoPushPull cpuTensorA cpuTensorB 1 "g" 0 0 engDefault emptyHM).events)
         (firstIdx isEnqEv
           (DoPushPull cpuTensorA cpuTensorB 1 "g" 0 0 engDefault emptyHM).events)
         = true)) :=
  ⟨rfl, C7_register_before_submit cpuTensorA cpuTensorB 1 "g" 0 0 engDefault emptyHM rfl⟩

/-! ### C8 -/

/-- C8: for every combination of the is-root and is-distributed booleans, the
stage plan contains exactly one local-reduce and exactly one local-broadcast
stage, the local-reduce precedes the local-broadcast, and the local-broadcast
is the final stage. -/
theorem C8_reduce_broadcast_invariant :
    ∀ (r d : Bool),
      (queueList r d).count QueueType.REDUCE = 1 ∧
      (queueList r d).count QueueType.BROADCAST = 1 ∧
      optLt (firstIdx (fun q => q == QueueType.REDUCE) (queueList r d))
        (firstIdx (fun q => q == QueueType.BROADCAST) (queueList r d)) = true ∧
      (queueList r d).getLast? = some QueueType.BROADCAST := by
  decide

/-! ### C9 -/

/-- A tensor's device id is the CPU sentinel exactly when the tensor is
host-resident (CUDA indices are non-negative, the sentinel is -1). -/
theorem getDeviceID_eq_cpu (t : TorchTensor) :
    GetDeviceID t = CPU_DEVICE_ID ↔ t.device = Device.cpu := by
  cases ht : t.device <;> simp [GetDeviceID, CPU_DEVICE_ID, ht]

/-- C9: when `DoPushPull` registers a tensor, the host data pointer handed to
`InitTensor` is the input tensor's raw data pointer exactly when the device
classifies as host (CPU), and `null` (`none`) for an accelerator-resident
tensor. -/
theorem C9_init_tensor_host_pointer (tensor output : TorchTensor)
    (average : Int) (name : String) (version priority : Int) (eng : Engine)
    (hm : HandleManager) (hinit : eng.initialized = true)
    (hreg : IsTensorInitialized eng (GetOpName "byteps" name 0) tensor.size = false) :
    initHostPtr (DoPushPull tensor output average name version priority eng hm)
      = some (if tensor.device = Device.cpu then some tensor.ptr else none) ∧
    ((if tensor.device = Device.cpu then some tensor.ptr else none)
        = some tensor.ptr ↔ tensor.device = Device.cpu) := by
  constructor
  · simp [DoPushPull, checkInitialized_ok eng hinit, hreg, initHostPtr,
      getDeviceID_eq_cpu]
  · cases htd : tensor.device <;> simp [htd]

/-- C9, witness: a host tensor's registration receives its raw pointer. -/
theorem C9_init_tensor_host_pointer_witness :
    engDefault.initialized = true ∧
    IsTensorInitialized engDefault (GetOpName "byteps" "g" 0) cpuTensorA.size
      = false ∧
    (initHostPtr (DoPushPull cpuTensorA cpuTensorB 1 "g" 0 0 engDefault emptyHM)
       = some (if cpuTensorA.device = Device.cpu then some cpuTensorA.ptr else none) ∧
     ((if cpuTensorA.device = Device.cpu then some cpuTensorA.ptr else none)
         = some cpuTensorA.ptr ↔ cpuTensorA.device = Device.cpu)) :=
  ⟨rfl, by decide,
   C9_init_tensor_host_pointer cpuTensorA cpuTensorB 1 "g" 0 0 engDefault emptyHM
     rfl (by decide)⟩

/-! ### C10 -/

/-- C10: `WaitAndClear` calls `ReleaseHandle` only at a step at which
`PollHandle` has just returned true for that handle; at such a step the
release necessarily succeeds, so the release-on-pending misuse error is
unreachable through the `WaitAndClear` entry point (its trace never contains
a misuse release). -/
theorem C10_no_release_before_poll (handle : Int) (env : Nat → HandleManager)
    (fuel i : Nat) (hpoll : (pollLoop handle env fuel 0).1 = some i) :
    (env i).PollHandle handle = true ∧
    (∃ st hm', (env i).ReleaseHandle handle = Except.ok (st, hm')) ∧
    countMisuse (WaitAndClear handle env fuel).2 = 0 := by
  have hp := pollLoop_some_poll handle env fuel 0 i hpoll
  obtain ⟨st, hrel, _⟩ := releaseHandle_of_poll (env i) handle hp
  obtain ⟨evs, hevs⟩ : ∃ evs, pollLoop handle env fuel 0 = (some i, evs) :=
    ⟨(pollLoop handle env fuel 0).2, by rw [← hpoll]⟩
  have hnm : countMisuse evs = 0 := by
    have h0 := pollLoop_no_misuse handle env fuel 0
    rw [hevs] at h0
    exact h0
  refine ⟨hp, ⟨st, _, hrel⟩, ?_⟩
  have hw : (WaitAndClear handle env fuel).2 = evs ++ [WCEvent.release handle] := by
    simp [WaitAndClear, hevs, hrel]
  rw [hw]
  unfold countMisuse at hnm ⊢
  rw [List.countP_append, hnm]
  simp [List.countP_cons]

/-- C10, witness: the concrete resolution schedule of the C6 witness; the
release at step 1 succeeds and the trace holds no misuse release. -/
theorem C10_no_release_before_poll_witness :
    (pollLoop 0 envResolve1 3 0).1 = some 1 ∧
    ((envResolve1 1).PollHandle 0 = true ∧
     (∃ st hm', (envResolve1 1).ReleaseHandle 0 = Except.ok (st, hm')) ∧
     countMisuse (WaitAndClear 0 envResolve1 3).2 = 0) :=
  ⟨by decide, C10_no_release_before_poll 0 envResolve1 3 1 (by decide)⟩

end BytePS
